import Mathlib

/-!
Verification of the LampFire firmware (`src/main.c`): a two-channel
incandescent-lamp flicker controller driven by a 16-bit LFSR pseudo-random
generator.  The C code is shallowly embedded: the global `uint16_t randreg`
becomes explicit state passing, 16-bit wraparound becomes `% 2 ^ 16`, and the
8-bit cast in `get_duty_cycle` becomes `% 256`.
-/

namespace LampFire

/-- Constant `LAMP_MIN_PWM` (main.c line 73): minimal duty cycle applied to
the outputs. -/
def LAMP_MIN_PWM : Nat := 50

/-- The feedback-bit computation inside `pseudorandom16` (main.c lines
100–103), applied to the (already zero-guarded) value of `randreg`:
`newbit` starts at 0, is set to 1 when bit 15 is set, and is XOR-toggled
for each of bits 14, 12 and 3 that is set. -/
def lfsr_newbit (randreg : Nat) : Nat :=
  let newbit : Nat := 0
  let newbit := if randreg &&& 0x8000 ≠ 0 then 1 else newbit
  let newbit := if randreg &&& 0x4000 ≠ 0 then newbit ^^^ 1 else newbit
  let newbit := if randreg &&& 0x1000 ≠ 0 then newbit ^^^ 1 else newbit
  let newbit := if randreg &&& 0x0008 ≠ 0 then newbit ^^^ 1 else newbit
  newbit

/-- Function `pseudorandom16` (main.c lines 92–108).  The global `randreg` is passed
and returned explicitly: the result is `(stored state, returned value)`.
The C function zero-guards `randreg`, computes the feedback bit, then
executes `randreg = (randreg << 1) + newbit;` on `uint16_t`, which wraps
modulo `2 ^ 16`, and returns the stored `randreg`. -/
def pseudorandom16 (randreg : Nat) : Nat × Nat :=
  let randreg := if randreg = 0 then 1 else randreg
  let newbit := lfsr_newbit randreg
  let randreg := ((randreg <<< 1) + newbit) % 65536
  (randreg, randreg)

/-- Function `get_duty_cycle` (main.c lines 116–127): draws from the PRG, reduces
modulo 255, clamps up to `LAMP_MIN_PWM`, and returns the value cast to
`uint8_t` (`% 256`).  The result is `(duty value, new randreg)`. -/
def get_duty_cycle (randreg : Nat) : Nat × Nat :=
  let p := pseudorandom16 randreg
  let lamp_duty_cycle := p.2 % 255
  let lamp_duty_cycle :=
    if lamp_duty_cycle < LAMP_MIN_PWM then LAMP_MIN_PWM else lamp_duty_cycle
  (lamp_duty_cycle % 256, p.1)

/-- The pure duty computation of `get_duty_cycle` as a function of the draw
value `D` it consumes (reduction modulo 255, clamp to the floor, `uint8_t`
cast); `get_duty_cycle` is exactly this applied to a fresh draw. -/
def duty_of_draw (D : Nat) : Nat :=
  let d := D % 255
  (if d < LAMP_MIN_PWM then LAMP_MIN_PWM else d) % 256

/- ### Basic lemmas about the PRG -/

theorem pseudorandom16_def (s : Nat) :
    pseudorandom16 s =
      ((((if s = 0 then 1 else s) <<< 1) + lfsr_newbit (if s = 0 then 1 else s)) % 65536,
       (((if s = 0 then 1 else s) <<< 1) + lfsr_newbit (if s = 0 then 1 else s)) % 65536) := rfl

theorem get_duty_cycle_def (s : Nat) :
    get_duty_cycle s = (duty_of_draw (pseudorandom16 s).2, (pseudorandom16 s).1) := rfl

/-- The spec's description of the feedback bit: the XOR of bits 15, 14, 12
and 3 of the state, as a 0/1 value. -/
def spec_feedback (g : Nat) : Nat :=
  ((g.testBit 15).xor ((g.testBit 14).xor ((g.testBit 12).xor (g.testBit 3)))).toNat

theorem and_two_pow_ne_iff (r i : Nat) : (r &&& 2 ^ i ≠ 0) ↔ r.testBit i = true := by
  rw [Nat.and_two_pow]
  cases h : r.testBit i
  · simp
  · exact iff_of_true (by simp [(Nat.two_pow_pos i).ne']) rfl

/-- The sequential if-chain of `lfsr_newbit` computes the XOR of bits
15, 14, 12 and 3. -/
theorem lfsr_newbit_eq (r : Nat) :
    lfsr_newbit r = spec_feedback r := by
  have h15 := and_two_pow_ne_iff r 15
  have h14 := and_two_pow_ne_iff r 14
  have h12 := and_two_pow_ne_iff r 12
  have h3 := and_two_pow_ne_iff r 3
  norm_num at h15 h14 h12 h3
  unfold lfsr_newbit spec_feedback
  cases e15 : r.testBit 15 <;> cases e14 : r.testBit 14 <;>
    cases e12 : r.testBit 12 <;> cases e3 : r.testBit 3 <;>
      simp_all

theorem lfsr_newbit_le_one (r : Nat) : lfsr_newbit r ≤ 1 := by
  simp only [lfsr_newbit_eq, spec_feedback]
  cases ((r.testBit 15).xor ((r.testBit 14).xor ((r.testBit 12).xor (r.testBit 3)))) <;> simp

/-- C1: one PRG draw computes the feedback bit as the XOR of bits 15, 14, 12
and 3 of the zero-guarded state, stores `((s << 1) + feedback) % 2 ^ 16`, and
returns exactly the stored state. -/
theorem prg_step_formula (s : Nat) :
    (pseudorandom16 s).2 = (pseudorandom16 s).1 ∧
    (pseudorandom16 s).1 =
      (((if s = 0 then 1 else s) <<< 1) + spec_feedback (if s = 0 then 1 else s)) % 2 ^ 16 := by
  refine ⟨rfl, ?_⟩
  rw [pseudorandom16_def, lfsr_newbit_eq]
  norm_num

/-- C3: the zero-guard makes a draw from state 0 behave exactly as a draw
from state 1, and that draw yields the non-zero state 2, so state 0 is not
perpetuated. -/
theorem zero_guard_behaviour :
    pseudorandom16 0 = pseudorandom16 1 ∧
    (pseudorandom16 0).1 = 2 ∧ (pseudorandom16 0).2 ≠ 0 := by
  refine ⟨rfl, rfl, by decide⟩

/-- C5: the three spec test vectors of the PRG: from `0x8000` feedback 1 and
new state `0x0001`; from `0x4000` feedback 1 and new state `0x8001`; from 0
the effective input is 1, feedback 0, new state `0x0002`. -/
theorem prg_test_vectors :
    lfsr_newbit 0x8000 = 1 ∧ pseudorandom16 0x8000 = (0x0001, 0x0001) ∧
    lfsr_newbit 0x4000 = 1 ∧ pseudorandom16 0x4000 = (0x8001, 0x8001) ∧
    (if (0 : Nat) = 0 then 1 else 0) = 1 ∧ lfsr_newbit 1 = 0 ∧
    pseudorandom16 0 = (0x0002, 0x0002) := by
  refine ⟨by decide, by decide, by decide, by decide, rfl, by decide, by decide⟩

/-- C2: the duty-cycle derivation applied to the draw `D` it consumes
returns `max 50 (D % 255)`: never below the floor 50, never above 254, and
exactly `D % 255` whenever that is already at least 50. -/
theorem duty_cycle_bounds (s : Nat) :
    (get_duty_cycle s).1 = max LAMP_MIN_PWM ((pseudorandom16 s).2 % 255) ∧
    LAMP_MIN_PWM ≤ (get_duty_cycle s).1 ∧
    (get_duty_cycle s).1 ≤ 254 ∧
    (LAMP_MIN_PWM ≤ (pseudorandom16 s).2 % 255 →
      (get_duty_cycle s).1 = (pseudorandom16 s).2 % 255) := by
  rw [get_duty_cycle_def]
  unfold duty_of_draw LAMP_MIN_PWM
  have hlt : (pseudorandom16 s).2 % 255 < 255 := Nat.mod_lt _ (by norm_num)
  simp only []
  split
  · refine ⟨by omega, by omega, by omega, by omega⟩
  · refine ⟨by omega, by omega, by omega, by omega⟩

/-- Witness for the conditional part of `duty_cycle_bounds` at state 100,
whose draw is 200 with `200 % 255 = 200 ≥ 50`. -/
theorem duty_cycle_bounds_witness :
    LAMP_MIN_PWM ≤ (pseudorandom16 100).2 % 255 ∧
    (get_duty_cycle 100).1 = (pseudorandom16 100).2 % 255 :=
  ⟨by decide, (duty_cycle_bounds 100).2.2.2 (by decide)⟩

/-- C10: from any 16-bit state, a single draw never stores or returns 0. -/
theorem prg_never_zero (s : Nat) (h : s < 2 ^ 16) :
    (pseudorandom16 s).1 ≠ 0 ∧ (pseudorandom16 s).2 ≠ 0 := by
  have hmain : (pseudorandom16 s).1 ≠ 0 := by
    rw [pseudorandom16_def]
    simp only []
    set g := if s = 0 then 1 else s with hg
    have hg0 : g ≠ 0 := by
      rw [hg]; split
      · norm_num
      · assumption
    have hglt : g < 65536 := by
      rw [hg]; split
      · norm_num
      · norm_num at h; omega
    have hfb : lfsr_newbit g ≤ 1 := lfsr_newbit_le_one g
    have hshift : g <<< 1 = 2 * g := by rw [Nat.shiftLeft_eq]; ring
    rw [hshift]
    intro hc
    have hsum : 2 * g + lfsr_newbit g = 65536 := by omega
    have hfb0 : lfsr_newbit g = 0 := by omega
    have hg32768 : g = 32768 := by omega
    rw [hg32768] at hfb0
    have : lfsr_newbit 32768 = 1 := by decide
    omega
  exact ⟨hmain, by rw [pseudorandom16_def] at hmain ⊢; exact hmain⟩

/-- Witness for `prg_never_zero` at the overflow state `0x8000`. -/
theorem prg_never_zero_witness :
    0x8000 < 2 ^ 16 ∧ ((pseudorandom16 0x8000).1 ≠ 0 ∧ (pseudorandom16 0x8000).2 ≠ 0) :=
  ⟨by norm_num, prg_never_zero 0x8000 (by norm_num)⟩

/- ### The main loop body (main.c lines 165–180) -/

/-- One iteration's observable effect: the two compare values written to
`OCR0A` and `OCR0B` and the number of 1 ms waits performed. -/
structure CycleOut where
  ocr0a : Nat
  ocr0b : Nat
  waits : Nat
deriving DecidableEq

/-- The body of `while(1)` (main.c lines 165–180): two sequential
`get_duty_cycle()` calls written to `OCR0A` then `OCR0B`, then a third draw
reduced modulo 50 giving the number of `_delay_ms(1)` iterations of the
`for` loop (the loop runs exactly `random_cycle_delay` times since
`random_cycle_delay < 50 < 256` fits the `uint8_t` counter).  Returns the
observable outputs and the final `randreg`. -/
def loop_body (randreg : Nat) : CycleOut × Nat :=
  let d0 := get_duty_cycle randreg
  let d1 := get_duty_cycle d0.2
  let p := pseudorandom16 d1.2
  let random_cycle_delay := p.2 % 50
  (⟨d0.1, d1.1, random_cycle_delay⟩, p.1)

/-- C6: the per-cycle delay is a fresh draw (the third of the cycle)
reduced modulo 50, hence the number of 1 ms waits is always below 50. -/
theorem cycle_delay_bound (s : Nat) :
    (loop_body s).1.waits =
      (pseudorandom16 (get_duty_cycle (get_duty_cycle s).2).2).2 % 50 ∧
    (loop_body s).1.waits < 50 := by
  refine ⟨rfl, ?_⟩
  show (pseudorandom16 (get_duty_cycle (get_duty_cycle s).2).2).2 % 50 < 50
  exact Nat.mod_lt _ (by norm_num)

/-- C7: channel 0's compare value comes from the cycle's first draw and
channel 1's from the immediately following draw (taken from the state the
first draw left behind), never from the same draw; at state 100 the two
values indeed differ. -/
theorem channels_use_distinct_draws (s : Nat) :
    (loop_body s).1.ocr0a = duty_of_draw (pseudorandom16 s).2 ∧
    (loop_body s).1.ocr0b = duty_of_draw (pseudorandom16 (pseudorandom16 s).1).2 ∧
    (get_duty_cycle s).2 = (pseudorandom16 s).1 ∧
    (loop_body 100).1.ocr0a ≠ (loop_body 100).1.ocr0b := by
  refine ⟨rfl, rfl, rfl, by decide⟩

/- ### Hardware registers and the startup sequence (main.c lines 133–162) -/

/-- Macro `_BV(x)` from avr/io.h. -/
def BV (x : Nat) : Nat := 1 <<< x

/-- Pin and bit numbers from avr/io.h for the attiny85 (the external
register-level interface the firmware drives; values per the device
datasheet). -/
def PB0 : Nat := 0

def PB1 : Nat := 1

def DDB0 : Nat := 0

def DDB1 : Nat := 1

def COM0A1 : Nat := 7

def COM0B1 : Nat := 5

def WGM00 : Nat := 0

def WGM01 : Nat := 1

def CS00 : Nat := 0

def CS02 : Nat := 2

/-- The 8-bit hardware registers the firmware writes. -/
structure HW where
  portb : Nat
  ddrb : Nat
  tccr0a : Nat
  tccr0b : Nat
  ocr0a : Nat
  ocr0b : Nat
deriving DecidableEq

/-- Register accesses and delays performed by `main` before the loop, one
constructor per statement shape: `_delay_ms(n)`, `DDRB |= _BV(p)`,
`PORTB |= _BV(p)` (lamp on), `PORTB &= ~_BV(p)` (lamp off),
`TCCR0A |= _BV(b)`, `TCCR0B |= _BV(b)`, `OCR0A = v`, `OCR0B = v`. -/
inductive HwEvent
  | delayMs (n : Nat)
  | ddrbSet (pin : Nat)
  | portbSet (pin : Nat)
  | portbClear (pin : Nat)
  | tccr0aSet (bit : Nat)
  | tccr0bSet (bit : Nat)
  | ocr0aWrite (v : Nat)
  | ocr0bWrite (v : Nat)
deriving DecidableEq

/-- Effect of one statement on the registers (`~` on an 8-bit register is
complement within 255; a delay leaves the registers unchanged). -/
def execEvent (h : HW) : HwEvent → HW
  | .delayMs _ => h
  | .ddrbSet p => { h with ddrb := (h.ddrb ||| BV p) % 256 }
  | .portbSet p => { h with portb := (h.portb ||| BV p) % 256 }
  | .portbClear p => { h with portb := h.portb &&& (255 ^^^ BV p) }
  | .tccr0aSet b => { h with tccr0a := (h.tccr0a ||| BV b) % 256 }
  | .tccr0bSet b => { h with tccr0b := (h.tccr0b ||| BV b) % 256 }
  | .ocr0aWrite v => { h with ocr0a := v % 256 }
  | .ocr0bWrite v => { h with ocr0b := v % 256 }

def execEvents (h : HW) : List HwEvent → HW
  | [] => h
  | e :: es => execEvents (execEvent h e) es

/-- The wait windows of a statement sequence: each `_delay_ms(n)` paired
with the register state held during that wait, in program order. -/
def waitPhases (h : HW) : List HwEvent → List (Nat × HW)
  | [] => []
  | e :: es =>
    match e with
    | .delayMs n => (n, h) :: waitPhases h es
    | _ => waitPhases (execEvent h e) es

/-- The statements of `main` before `while(1)` (main.c lines 136–162),
in source order. -/
def startupEvents : List HwEvent :=
  [ .delayMs 100,
    .ddrbSet DDB0,
    .ddrbSet DDB1,
    .portbSet PB0,
    .delayMs 750,
    .portbClear PB0,
    .portbSet PB1,
    .delayMs 750,
    .portbClear PB1,
    .tccr0aSet COM0A1,
    .tccr0aSet COM0B1,
    .tccr0aSet WGM00,
    .tccr0aSet WGM01,
    .tccr0bSet CS00,
    .tccr0bSet CS02,
    .ocr0aWrite LAMP_MIN_PWM,
    .ocr0bWrite LAMP_MIN_PWM ]

/-- AVR registers come out of reset as 0. -/
def hwReset : HW := ⟨0, 0, 0, 0, 0, 0⟩

/-- A lamp output is actively driven high when its `PORTB` bit is set. -/
def lampActive (h : HW) (pin : Nat) : Bool := h.portb.testBit pin

/-- C8: the startup run has exactly three wait windows of 100, 750 and
750 ms in order; no lamp is driven during the settle window, channel 0
alone during the first 750 ms window and channel 1 alone during the
second; both pins are configured as outputs for both test windows; and at
loop entry both lamps are off, the PWM mode/prescaler registers are
configured, and both compare registers hold the floor value 50. -/
theorem startup_sequence :
    (waitPhases hwReset startupEvents).map Prod.fst = [100, 750, 750] ∧
    (waitPhases hwReset startupEvents).map
        (fun p => (lampActive p.2 PB0, lampActive p.2 PB1)) =
      [(false, false), (true, false), (false, true)] ∧
    (waitPhases hwReset startupEvents).map
        (fun p => p.2.ddrb.testBit DDB0 && p.2.ddrb.testBit DDB1) =
      [false, true, true] ∧
    (execEvents hwReset startupEvents).ocr0a = LAMP_MIN_PWM ∧
    (execEvents hwReset startupEvents).ocr0b = LAMP_MIN_PWM ∧
    lampActive (execEvents hwReset startupEvents) PB0 = false ∧
    lampActive (execEvents hwReset startupEvents) PB1 = false ∧
    (execEvents hwReset startupEvents).tccr0a =
      (BV COM0A1 ||| BV COM0B1 ||| BV WGM00 ||| BV WGM01) ∧
    (execEvents hwReset startupEvents).tccr0b = (BV CS00 ||| BV CS02) := by
  refine ⟨by decide, by decide, by decide, by decide, by decide, by decide, by decide,
    by decide, by decide⟩

/- ### The running system and determinism of the output stream -/

/-- Whole-system state: the hardware registers plus the PRG state
`randreg`. -/
structure SysState where
  hw : HW
  randreg : Nat
deriving DecidableEq

/-- One iteration of `while(1)` over the whole system: the two computed
duty cycles are written to `OCR0A` and `OCR0B`, and `randreg` advances by
the three draws of the cycle. -/
def loop_step (st : SysState) : SysState × CycleOut :=
  let r := loop_body st.randreg
  (⟨{ st.hw with ocr0a := r.1.ocr0a % 256, ocr0b := r.1.ocr0b % 256 }, r.2⟩, r.1)

/-- The observable outputs of the first `n` loop iterations. -/
def loop_outputs : Nat → SysState → List CycleOut
  | 0, _ => []
  | n + 1, st => (loop_step st).2 :: loop_outputs n (loop_step st).1

/-- C9: the output stream of the loop is a pure function of the initial
PRG state and the iteration count alone — two systems agreeing on
`randreg` produce identical outputs whatever their other state, and the
stream has exactly one entry per iteration. -/
theorem output_stream_deterministic (n : Nat) (s1 s2 : SysState)
    (h : s1.randreg = s2.randreg) :
    loop_outputs n s1 = loop_outputs n s2 ∧ (loop_outputs n s1).length = n := by
  induction n generalizing s1 s2 with
  | zero => simp [loop_outputs]
  | succ n ih =>
    have hout : (loop_step s1).2 = (loop_step s2).2 := by
      simp only [loop_step, h]
    have hreg : (loop_step s1).1.randreg = (loop_step s2).1.randreg := by
      simp only [loop_step, h]
    obtain ⟨he, hl⟩ := ih (loop_step s1).1 (loop_step s2).1 hreg
    constructor
    · simp only [loop_outputs, hout, he]
    · simp only [loop_outputs, List.length_cons, hl]

/-- Witness for `output_stream_deterministic`: two systems with different
register contents but the same `randreg` produce the same three outputs. -/
theorem output_stream_deterministic_witness :
    (SysState.mk ⟨0, 0, 0, 0, 0, 0⟩ 7).randreg = (SysState.mk ⟨1, 2, 3, 4, 5, 6⟩ 7).randreg ∧
    (loop_outputs 3 ⟨⟨0, 0, 0, 0, 0, 0⟩, 7⟩ = loop_outputs 3 ⟨⟨1, 2, 3, 4, 5, 6⟩, 7⟩ ∧
      (loop_outputs 3 ⟨⟨0, 0, 0, 0, 0, 0⟩, 7⟩).length = 3) :=
  ⟨rfl, output_stream_deterministic 3 ⟨⟨0, 0, 0, 0, 0, 0⟩, 7⟩ ⟨⟨1, 2, 3, 4, 5, 6⟩, 7⟩ rfl⟩

/- ### The PRG state's initial value and lifecycle -/

/-- Global `uint16_t randreg;` (main.c line 81) has static storage duration and no
initializer, so per C semantics it is zero-initialized at program start.
No other statement in the program assigns it outside `pseudorandom16`. -/
def randreg_init : Nat := 0

/-- C4 counterexample: the initial value of `randreg` is 0, not a non-zero
default — the claim that it is initialized to a non-zero value is false. -/
theorem randreg_init_is_zero : ¬ randreg_init ≠ 0 := by decide

/-- C4 amended: `randreg` is initialized exactly once, implicitly to 0, is
never touched by the startup sequence, and afterwards changes only through
PRG draws (three per loop iteration, never a reset); the zero-guard makes
the first draw behave as a draw from state 1 and yield a non-zero state. -/
theorem randreg_lifecycle :
    randreg_init = 0 ∧
    pseudorandom16 randreg_init = pseudorandom16 1 ∧
    (pseudorandom16 randreg_init).1 ≠ 0 ∧
    ∀ st : SysState, (loop_step st).1.randreg =
      (pseudorandom16 (pseudorandom16 (pseudorandom16 st.randreg).1).1).1 :=
  ⟨rfl, rfl, by decide, fun _ => rfl⟩

end LampFire
